import Mathlib

/-!
Verification development for the `taish` remote-control client library
(`tools/taish/client/taish/__init__.py`).

The Python client is embedded shallowly:

* Remote behaviour (the gRPC stub) is an oracle `Env` mapping each request to
  the response the wire would carry back; the out-of-band status footer that
  `check_metadata` turns into a raised `TAIException` is modelled by the
  oracle returning `Except.error`.
* Every client operation is a value of `TaiM α`: the `Except` outcome of the
  Python call paired with the ordered trace of stream-open / message-send
  events it performed against the stub.
* Python exceptions are the inductive `PyErr`: `tai code msg` for
  `TAIException(code, msg)` and `generic msg` for plain `Exception`s
  (including `NameError` / `KeyError` / `IndexError` slips).
-/

namespace Taish

/-- Python exceptions thrown by the client: `TAIException(code, msg)` or a
plain `Exception(msg)` (also used for `NameError`/`KeyError`/`IndexError`). -/
inductive PyErr where
  | tai (code : Int) (msg : String)
  | generic (msg : String)
deriving DecidableEq, Repr

/-- Observable interactions with the remote stub: opening a per-call stream
(`stub.X.open()`) and sending a request message on it. -/
inductive RpcEvent where
  | streamOpen (method : String)
  | send (method : String)
deriving DecidableEq, Repr

/-- Result of running one client operation: the Python outcome (`ok` value or
raised exception) together with the ordered trace of stub interactions. -/
def TaiM (α : Type) : Type := Except PyErr α × List RpcEvent

def TaiM.pure {α : Type} (a : α) : TaiM α := (Except.ok a, [])

def TaiM.bind {α β : Type} (x : TaiM α) (f : α → TaiM β) : TaiM β :=
  match x with
  | (Except.ok a, t) => ((f a).1, t ++ (f a).2)
  | (Except.error e, t) => (Except.error e, t)

instance : Monad TaiM where
  pure := TaiM.pure
  bind := TaiM.bind

/-- Raising a Python exception: no further stub interaction. -/
def taiFail {α : Type} (e : PyErr) : TaiM α := (Except.error e, [])

/-- Record one stub interaction. -/
def emit (e : RpcEvent) : TaiM Unit := (Except.ok (), [e])

/-- Lift an oracle answer (a wire response or status-footer failure) into the
monad; receiving a response adds no stream-open/send event. -/
def liftE {α : Type} (x : Except PyErr α) : TaiM α := (x, [])

@[simp] theorem TaiM.bind_eq {α β : Type} (x : TaiM α) (f : α → TaiM β) :
    Bind.bind x f = TaiM.bind x f := rfl

@[simp] theorem TaiM.pure_eq {α : Type} (a : α) :
    (Pure.pure a : TaiM α) = (Except.ok a, []) := rfl

@[simp] theorem TaiM.bind_ok {α β : Type} (a : α) (t : List RpcEvent) (f : α → TaiM β) :
    TaiM.bind (Except.ok a, t) f = ((f a).1, t ++ (f a).2) := rfl

@[simp] theorem TaiM.bind_error {α β : Type} (e : PyErr) (t : List RpcEvent) (f : α → TaiM β) :
    TaiM.bind (Except.error e, t) f = (Except.error e, t) := rfl

@[simp] theorem taiFail_eq {α : Type} (e : PyErr) : (taiFail e : TaiM α) = (Except.error e, []) := rfl

@[simp] theorem emit_eq (e : RpcEvent) : emit e = (Except.ok (), [e]) := rfl

@[simp] theorem liftE_eq {α : Type} (x : Except PyErr α) : liftE x = (x, []) := rfl

/-- Object type tags (`taish_pb2.MODULE` / `NETIF` / `HOSTIF`). -/
inductive ObjType where
  | module
  | netif
  | hostif
deriving DecidableEq, Repr

/-- Attribute descriptor (`res.metadata`): canonical id, name and usage
classification string (the notification classification is the literal
`"<notification>"`). -/
structure Metadata where
  attr_id : Nat
  name : String
  usage : String
deriving DecidableEq, Repr

/-- An attribute reference as the Python code distinguishes them by runtime
type: numeric id (`int`), name (`str`), or an already-resolved descriptor
(anything else, assumed to carry `.attr_id`). -/
inductive AttrRef where
  | byId (i : Nat)
  | byName (n : String)
  | byMeta (m : Metadata)
deriving DecidableEq, Repr

/-- Wire record of one netif/hostif child inside a module message
(`module.netifs[i]` / `module.hostifs[i]`): object id and index. -/
structure IfData where
  oid : Nat
  index : Nat
deriving DecidableEq, Repr

/-- Wire record of one module (`res.module` of `ListModule`). -/
structure ModuleData where
  oid : Nat
  location : String
  present : Bool
  netifs : List IfData
  hostifs : List IfData
deriving DecidableEq, Repr

/-- Remote oracle: for each request shape, the response the stub would
deliver, with a status-footer failure rendered as `Except.error`.
`metadataResp` is keyed by object type, oid, location and the attribute key
sent (`Sum.inl id` for `req.attr_id`, `Sum.inr name` for `req.attr_name`);
`getResp` by oid, the requested attribute ids and the json flag, returning
the serialized values of `res.attributes`; `setResp` / `createResp`
analogously by their request contents. -/
structure Env where
  metadataResp : ObjType → Nat → String → (Nat ⊕ String) → Except PyErr Metadata
  getResp : Nat → List Nat → Bool → Except PyErr (List String)
  setResp : Nat → List (Nat × String) → Except PyErr Unit
  createResp : ObjType → Nat → List (Nat × String) → Except PyErr Nat

/-- `AsyncClient.get_attribute_metadata`: open the GetAttributeMetadata
stream, fill `attr_id` or `attr_name` according to the reference's runtime
type — raising `Exception("invalid argument")` for any other type —
then send and receive the descriptor. -/
def get_attribute_metadata (env : Env) (ot : ObjType) (attr : AttrRef)
    (oid : Nat) (location : String) : TaiM Metadata := do
  emit (.streamOpen "GetAttributeMetadata")
  match attr with
  | .byId i => do
      emit (.send "GetAttributeMetadata")
      liftE (env.metadataResp ot oid location (Sum.inl i))
  | .byName n => do
      emit (.send "GetAttributeMetadata")
      liftE (env.metadataResp ot oid location (Sum.inr n))
  | .byMeta _ => taiFail (.generic "invalid argument")

/-- `AsyncClient.get_module`: scan the ListModule response in order; at the
first record whose location matches, fail if it is not present, fail if its
oid is 0, otherwise return it; if the scan exhausts the listing, fail with
the not-found error. (The wire listing the ListModule call returns is passed
as `wire`; the `Module(self, m)` wrapper's data part is returned.) -/
def get_module (wire : List ModuleData) (location : String) :
    Except PyErr ModuleData :=
  match wire with
  | [] => Except.error (.tai (-1) ("no module " ++ location ++ " found"))
  | m :: rest =>
    if m.location = location then
      if m.present = false then
        Except.error (.tai (-1) ("module " ++ location ++ " not present"))
      else if m.oid = 0 then
        Except.error (.tai (-1) ("module " ++ location ++ " not created yet"))
      else Except.ok m
    else get_module rest location

/-- C4: for every location, `get_module` resolves through the first listed
module at that location: listed-but-not-present fails "module not present",
present-with-oid-0 fails "module not created yet", location absent from the
listing fails "no module found", and otherwise the module is returned; the
three failure messages are pairwise distinct, so the three kinds are
separately distinguishable. -/
theorem get_module_trichotomy (wire : List ModuleData) (loc : String) :
    (get_module wire loc =
      match wire.find? (fun m => m.location = loc) with
      | none => Except.error (.tai (-1) ("no module " ++ loc ++ " found"))
      | some m =>
        if m.present = false then
          Except.error (.tai (-1) ("module " ++ loc ++ " not present"))
        else if m.oid = 0 then
          Except.error (.tai (-1) ("module " ++ loc ++ " not created yet"))
        else Except.ok m)
    ∧ ("no module " ++ loc ++ " found") ≠ ("module " ++ loc ++ " not present")
    ∧ ("module " ++ loc ++ " not present") ≠ ("module " ++ loc ++ " not created yet")
    ∧ ("no module " ++ loc ++ " found") ≠ ("module " ++ loc ++ " not created yet") := by
  refine ⟨?_, ?_, ?_, ?_⟩
  · induction wire with
    | nil => rfl
    | cons m rest ih =>
      by_cases h : m.location = loc
      · simp [get_module, List.find?, h]
      · simp only [get_module, List.find?]
        rw [if_neg h]
        have hb : (m.location = loc : Bool) = false := by
          simp [h]
        rw [hb]
        exact ih
  · intro h
    have hlen := congrArg String.length h
    have e1 : ("no module ").length = 10 := rfl
    have e2 : (" found").length = 6 := rfl
    have e3 : ("module ").length = 7 := rfl
    have e4 : (" not present").length = 12 := rfl
    simp only [String.length_append, e1, e2, e3, e4] at hlen
    omega
  · intro h
    have hlen := congrArg String.length h
    have e3 : ("module ").length = 7 := rfl
    have e4 : (" not present").length = 12 := rfl
    have e5 : (" not created yet").length = 16 := rfl
    simp only [String.length_append, e3, e4, e5] at hlen
    omega
  · intro h
    have hlen := congrArg String.length h
    have e1 : ("no module ").length = 10 := rfl
    have e2 : (" found").length = 6 := rfl
    have e3 : ("module ").length = 7 := rfl
    have e5 : (" not created yet").length = 16 := rfl
    simp only [String.length_append, e1, e2, e3, e5] at hlen
    omega

/-- Result of building the SetAttribute request for one attribute of
`set_multiple`: resolve a numeric id by passthrough, a name via a metadata
lookup scoped to the oid, and a descriptor by reading its `attr_id`. -/
def setLoop (env : Env) (ot : ObjType) (oid : Nat) :
    List (AttrRef × String) → TaiM (List (Nat × String))
  | [] => TaiM.pure []
  | (r, v) :: rest => do
    let i ← match r with
      | .byId i => TaiM.pure i
      | .byName n => do
          let m ← get_attribute_metadata env ot (.byName n) oid ""
          TaiM.pure m.attr_id
      | .byMeta m => TaiM.pure m.attr_id
    let tl ← setLoop env ot oid rest
    TaiM.pure ((i, v) :: tl)

/-- `AsyncClient.set_multiple`: open the SetAttribute stream, resolve each
attribute reference into a (id, stringified value) pair, then send the
batched request and check the status footer. -/
def set_multiple (env : Env) (ot : ObjType) (oid : Nat)
    (attributes : List (AttrRef × String)) : TaiM Unit := do
  emit (.streamOpen "SetAttribute")
  let reqAttrs ← setLoop env ot oid attributes
  emit (.send "SetAttribute")
  liftE (env.setResp oid reqAttrs)

/-- `AsyncClient.set`: single-attribute form delegating to `set_multiple`. -/
def set (env : Env) (ot : ObjType) (oid : Nat) (attr : AttrRef) (v : String) :
    TaiM Unit :=
  set_multiple env ot oid [(attr, v)]

/-- One entry of `get_multiple`'s `attributes` argument: either a bare
reference or a `(reference, value hint)` tuple (the hint may be `None`). -/
inductive GetEntry where
  | bare (r : AttrRef)
  | pair (r : AttrRef) (hint : Option String)
deriving DecidableEq, Repr

/-- One entry of `get_multiple`'s return list: the raw serialized value, or
— when metadata was requested — the value paired with a descriptor. -/
inductive GetResult where
  | plain (v : String)
  | withMeta (v : String) (m : Metadata)
deriving DecidableEq, Repr

/-- Request-building loop of `AsyncClient.get_multiple`, carried out with the
loop-carried Python locals made explicit: `aDef` records whether the local
`a` has been bound by a previous iteration (the descriptor branch runs
`if value: a.value = str(value)` before `a = Attribute()` is (re)bound, a
`NameError` on the first iteration; on later iterations it mutates the
previous iteration's message after it was already copied into the request by
`req.attrs.append`, so it is a no-op), and `meta` is the `meta` local, which
is NOT re-initialized per iteration: a numeric reference resolves it only
when `with_metadata` is set, a name reference always resolves it, a
descriptor reference assigns the descriptor itself. Returns the requested
attribute ids together with the final value of `meta`. -/
def getLoop (env : Env) (ot : ObjType) (oid : Nat) (wm : Bool) :
    List GetEntry → Bool → Option Metadata → TaiM (List Nat × Option Metadata)
  | [], _aDef, meta => TaiM.pure ([], meta)
  | e :: rest, aDef, meta =>
    let r := match e with | .bare r => r | .pair r _ => r
    let hint := match e with | .bare _ => none | .pair _ h => h
    match r with
    | .byId i => do
        let meta2 ←
          if wm then do
            let m ← get_attribute_metadata env ot (.byId i) oid ""
            TaiM.pure (some m)
          else TaiM.pure meta
        let tl ← getLoop env ot oid wm rest true meta2
        TaiM.pure (i :: tl.1, tl.2)
    | .byName n => do
        let m ← get_attribute_metadata env ot (.byName n) oid ""
        let tl ← getLoop env ot oid wm rest true (some m)
        TaiM.pure (m.attr_id :: tl.1, tl.2)
    | .byMeta m => do
        match hint with
        | some s =>
          if s ≠ "" ∧ aDef = false then
            taiFail (.generic "NameError: name a is not defined")
          else do
            let tl ← getLoop env ot oid wm rest true (some m)
            TaiM.pure (m.attr_id :: tl.1, tl.2)
        | none => do
            let tl ← getLoop env ot oid wm rest true (some m)
            TaiM.pure (m.attr_id :: tl.1, tl.2)

/-- `AsyncClient.get_multiple`: open the GetAttribute stream, build the
request (resolving references per `getLoop`), send it, then pair each
response value — when metadata was requested — with the final value of the
shared `meta` local (a `NameError` if it was never bound and a response
attribute is present). -/
def get_multiple (env : Env) (ot : ObjType) (oid : Nat)
    (attributes : List GetEntry) (wm json : Bool) : TaiM (List GetResult) := do
  emit (.streamOpen "GetAttribute")
  let loopOut ← getLoop env ot oid wm attributes false none
  emit (.send "GetAttribute")
  let values ← liftE (env.getResp oid loopOut.1 json)
  if wm then
    match values, loopOut.2 with
    | [], _ => TaiM.pure []
    | _ :: _, some m => TaiM.pure (values.map fun v => GetResult.withMeta v m)
    | _ :: _, none => taiFail (.generic "NameError: name meta is not defined")
  else
    TaiM.pure (values.map GetResult.plain)

/-- `AsyncClient.get`: wraps the single reference into a one-entry
`(attr, value)` batch and returns the first element of the result
(an `IndexError` if the response carried no attribute). -/
def get (env : Env) (ot : ObjType) (oid : Nat) (attr : AttrRef)
    (wm : Bool) (value : Option String) (json : Bool) : TaiM GetResult := do
  let v ← get_multiple env ot oid [GetEntry.pair attr value] wm json
  match v with
  | x :: _ => TaiM.pure x
  | [] => taiFail (.generic "IndexError")

/-- Per-attribute loop of `AsyncClient.create`: every attribute key is
resolved through a metadata lookup scoped to the governing location (even a
numeric one), and its value stringified into the request. -/
def createLoop (env : Env) (ot : ObjType) (location : String) :
    List (AttrRef × String) → TaiM (List (Nat × String))
  | [] => TaiM.pure []
  | (r, v) :: rest => do
    let m ← get_attribute_metadata env ot r 0 location
    let tl ← createLoop env ot location rest
    TaiM.pure ((m.attr_id, v) :: tl)

/-- `AsyncClient.create`: if a parent module id is given, fetch the parent's
location attribute remotely; otherwise scan `attrs` for a `location` entry
and raise `TAIException(0xE, "mandatory-attribute-missing")` when none is
found — before any stub interaction. Then open the Create stream, resolve
every attribute against that location, send, and return the new oid. -/
def create (env : Env) (ot : ObjType) (attrs : List (AttrRef × String))
    (module_id : Nat) : TaiM Nat := do
  let location ←
    if module_id ≠ 0 then do
      let r ← get env .module module_id (.byName "location") false none false
      match r with
      | .plain v => TaiM.pure v
      | .withMeta v _ => TaiM.pure v
    else
      match attrs.find? (fun a => a.1 = AttrRef.byName "location") with
      | some a => TaiM.pure a.2
      | none => taiFail (.tai 0xE "mandatory-attribute-missing")
  emit (.streamOpen "Create")
  let reqAttrs ← createLoop env ot location attrs
  emit (.send "Create")
  liftE (env.createResp ot module_id reqAttrs)

/-- Handle on the object a `monitor` subscription targets (`obj.object_type`
and `obj.oid` are all the monitor reads from it). -/
structure ObjHandle where
  object_type : ObjType
  oid : Nat
deriving DecidableEq, Repr

/-- `AsyncClient.monitor`: the Monitor stream is opened FIRST (the whole body
sits inside `async with self.stub.Monitor.open()`); then the descriptor is
resolved (a further stream), the usage classification checked — raising on a
non-notification attribute — and only then is the monitor request sent. The
Python receive loop never terminates on its own; it is modelled up to the
messages in `msgs`, returning the `(descriptor, message)` argument pairs the
callback would be invoked with. -/
def monitor (env : Env) (obj : ObjHandle) (attr : AttrRef) (json : Bool)
    (msgs : List String) : TaiM (List (Metadata × String)) := do
  emit (.streamOpen "Monitor")
  let m ← get_attribute_metadata env obj.object_type attr obj.oid ""
  if m.usage ≠ "<notification>" then
    taiFail (.generic "the type of attribute is not notification")
  else do
    emit (.send "Monitor")
    TaiM.pure (msgs.map fun s => (m, s))

/-- Attribute key a reference puts on the wire in a metadata request:
`attr_id` for a numeric reference, `attr_name` for a name, none for an
already-resolved descriptor (that case raises instead). -/
def attrKey : AttrRef → Option (Nat ⊕ String)
  | .byId i => some (Sum.inl i)
  | .byName n => some (Sum.inr n)
  | .byMeta _ => none

/-- Oracle that refuses every request: any stub interaction is visible as an
`unreachable` failure. -/
def envNoRemote : Env where
  metadataResp := fun _ _ _ _ => Except.error (.generic "unreachable")
  getResp := fun _ _ _ => Except.error (.generic "unreachable")
  setResp := fun _ _ => Except.error (.generic "unreachable")
  createResp := fun _ _ _ => Except.error (.generic "unreachable")

/-- Oracle whose every attribute descriptor is read-write (usage `"rw"`,
never the notification classification). -/
def envReadWrite : Env where
  metadataResp := fun _ _ _ _ => Except.ok ⟨7, "temp", "rw"⟩
  getResp := fun _ _ _ => Except.error (.generic "unreachable")
  setResp := fun _ _ => Except.error (.generic "unreachable")
  createResp := fun _ _ _ => Except.error (.generic "unreachable")

/-- C1 (counterexample): monitoring a non-notification attribute does fail
with the usage error, but NOT before any stream is opened: the trace already
holds the Monitor stream open and the metadata stream open/send, so the
number of stream-open calls made against the stub is two, not zero. -/
theorem monitor_counterexample_streams_opened_before_usage_check :
    monitor envReadWrite ⟨.module, 1⟩ (AttrRef.byName "temp") false [] =
      (Except.error (.generic "the type of attribute is not notification"),
       [.streamOpen "Monitor", .streamOpen "GetAttributeMetadata",
        .send "GetAttributeMetadata"]) := by
  rfl

/-- C1 (amended): for every object, resolvable attribute reference and
message stream, if the resolved descriptor's usage classification is not
exactly the notification classification, `monitor` fails with the usage
error before sending the monitor request (no Monitor send event) and before
any callback delivery; the Monitor stream is nevertheless opened first, and
a metadata stream is opened and used for the resolution. -/
theorem monitor_usage_error_before_send (env : Env) (obj : ObjHandle)
    (attr : AttrRef) (json : Bool) (msgs : List String)
    (k : Nat ⊕ String) (m : Metadata)
    (hk : attrKey attr = some k)
    (hm : env.metadataResp obj.object_type obj.oid "" k = Except.ok m)
    (hu : m.usage ≠ "<notification>") :
    monitor env obj attr json msgs =
      (Except.error (.generic "the type of attribute is not notification"),
       [.streamOpen "Monitor", .streamOpen "GetAttributeMetadata",
        .send "GetAttributeMetadata"]) := by
  cases attr with
  | byId i =>
    simp only [attrKey, Option.some.injEq] at hk
    subst hk
    simp [monitor, get_attribute_metadata, hm, hu]
  | byName n =>
    simp only [attrKey, Option.some.injEq] at hk
    subst hk
    simp [monitor, get_attribute_metadata, hm, hu]
  | byMeta m2 => simp [attrKey] at hk

/-- Closed instance of `monitor_usage_error_before_send` at a concrete
oracle, object and attribute. -/
theorem monitor_usage_error_before_send_witness :
    (attrKey (AttrRef.byName "temp") = some (Sum.inr "temp")
      ∧ envReadWrite.metadataResp ObjType.module 1 "" (Sum.inr "temp")
          = Except.ok ⟨7, "temp", "rw"⟩
      ∧ ("rw" : String) ≠ "<notification>")
    ∧ monitor envReadWrite ⟨.module, 1⟩ (AttrRef.byName "temp") false ["m1"] =
        (Except.error (.generic "the type of attribute is not notification"),
         [.streamOpen "Monitor", .streamOpen "GetAttributeMetadata",
          .send "GetAttributeMetadata"]) :=
  ⟨⟨rfl, rfl, by decide⟩,
   monitor_usage_error_before_send envReadWrite ⟨.module, 1⟩
     (AttrRef.byName "temp") false ["m1"] (Sum.inr "temp") ⟨7, "temp", "rw"⟩
     rfl rfl (by decide)⟩

/-- C5: `create` with parent module id 0 and no `location` entry among the
attributes raises `TAIException(0xE, "mandatory-attribute-missing")` with an
EMPTY stub trace: no stream is opened and no metadata lookup is performed
before the failure. -/
theorem create_missing_location_fails_before_rpc (env : Env) (ot : ObjType)
    (attrs : List (AttrRef × String))
    (h : ∀ a ∈ attrs, a.1 ≠ AttrRef.byName "location") :
    create env ot attrs 0 =
      (Except.error (.tai 0xE "mandatory-attribute-missing"), []) := by
  have hf : attrs.find? (fun a => a.1 = AttrRef.byName "location") = none := by
    rw [List.find?_eq_none]
    intro a ha
    simp [h a ha]
  simp [create, hf]

/-- Closed instance of `create_missing_location_fails_before_rpc`: a
non-empty attribute list without a location entry, against an oracle on
which any stub interaction would be visible as an `unreachable` failure. -/
theorem create_missing_location_fails_before_rpc_witness :
    (∀ a ∈ [((AttrRef.byId 3 : AttrRef), "foo"), (AttrRef.byName "index", "0")],
        a.1 ≠ AttrRef.byName "location")
    ∧ create envNoRemote .netif
        [(AttrRef.byId 3, "foo"), (AttrRef.byName "index", "0")] 0 =
        (Except.error (.tai 0xE "mandatory-attribute-missing"), []) :=
  ⟨by decide,
   create_missing_location_fails_before_rpc envNoRemote .netif
     [(AttrRef.byId 3, "foo"), (AttrRef.byName "index", "0")] (by decide)⟩

/-- C8: when the metadata oracle resolves the name `n` and the id `i` to one
and the same descriptor `m` with `m.attr_id = i` (one attribute addressable
both ways), a `set_multiple` or `get_multiple` through the name yields an
outcome identical to the one through the pre-resolved id (for any
`with_metadata` flag); and a numeric id with `with_metadata` off passes
through with a stub trace containing exactly the GetAttribute open and send
— no metadata interaction at all. -/
theorem resolve_by_name_matches_by_id (env : Env) (ot : ObjType)
    (oid i : Nat) (n : String) (m : Metadata) (v : String)
    (hint : Option String) (wm json : Bool)
    (hname : env.metadataResp ot oid "" (Sum.inr n) = Except.ok m)
    (hid : env.metadataResp ot oid "" (Sum.inl i) = Except.ok m)
    (hm : m.attr_id = i) :
    ((set_multiple env ot oid [(AttrRef.byName n, v)]).1
        = (set_multiple env ot oid [(AttrRef.byId i, v)]).1)
    ∧ ((get_multiple env ot oid [GetEntry.pair (AttrRef.byName n) hint] wm json).1
        = (get_multiple env ot oid [GetEntry.pair (AttrRef.byId i) hint] wm json).1)
    ∧ ((get_multiple env ot oid [GetEntry.pair (AttrRef.byId i) hint] false json).2
        = [RpcEvent.streamOpen "GetAttribute", RpcEvent.send "GetAttribute"]) := by
  subst hm
  refine ⟨?_, ?_, ?_⟩
  · simp [set_multiple, setLoop, get_attribute_metadata, hname, TaiM.pure, TaiM.bind]
  · cases wm with
    | false =>
      simp [get_multiple, getLoop, get_attribute_metadata, hname, TaiM.pure, TaiM.bind]
    | true =>
      simp [get_multiple, getLoop, get_attribute_metadata, hname, hid, TaiM.pure, TaiM.bind]
  · cases hres : env.getResp oid [m.attr_id] json with
    | ok values => simp [get_multiple, getLoop, hres, TaiM.pure, TaiM.bind]
    | error e => simp [get_multiple, getLoop, hres, TaiM.pure, TaiM.bind]

/-- Oracle for the closed C8 instance: one attribute named `alpha` with
canonical id 5, readable and writable, value responses echoing the id. -/
def envAlpha : Env where
  metadataResp := fun _ _ _ k =>
    match k with
    | Sum.inl 5 => Except.ok ⟨5, "alpha", "rw"⟩
    | Sum.inr "alpha" => Except.ok ⟨5, "alpha", "rw"⟩
    | _ => Except.error (.tai 1 "no such attribute")
  getResp := fun _ ids _ => Except.ok (ids.map fun j => "v" ++ toString j)
  setResp := fun _ _ => Except.ok ()
  createResp := fun _ _ _ => Except.ok 9

/-- Closed instance of `resolve_by_name_matches_by_id` for the attribute
`alpha` with id 5 on `envAlpha`. -/
theorem resolve_by_name_matches_by_id_witness :
    (envAlpha.metadataResp .module 3 "" (Sum.inr "alpha")
        = Except.ok ⟨5, "alpha", "rw"⟩
      ∧ envAlpha.metadataResp .module 3 "" (Sum.inl 5)
        = Except.ok ⟨5, "alpha", "rw"⟩
      ∧ (Metadata.mk 5 "alpha" "rw").attr_id = 5)
    ∧ (((set_multiple envAlpha .module 3 [(AttrRef.byName "alpha", "42")]).1
        = (set_multiple envAlpha .module 3 [(AttrRef.byId 5, "42")]).1)
      ∧ ((get_multiple envAlpha .module 3
            [GetEntry.pair (AttrRef.byName "alpha") none] true false).1
        = (get_multiple envAlpha .module 3
            [GetEntry.pair (AttrRef.byId 5) none] true false).1)
      ∧ ((get_multiple envAlpha .module 3
            [GetEntry.pair (AttrRef.byId 5) none] false false).2
        = [RpcEvent.streamOpen "GetAttribute", RpcEvent.send "GetAttribute"])) :=
  ⟨⟨rfl, rfl, rfl⟩,
   resolve_by_name_matches_by_id envAlpha .module 3 5 "alpha"
     ⟨5, "alpha", "rw"⟩ "42" none true false rfl rfl rfl⟩

/-- Owning-client reference stored in every `TAIObject`: either the internal
`AsyncClient` an operation ran on, or the synchronous facade (`Client`). -/
inductive ClientRef where
  | internalAsync
  | facade
deriving DecidableEq, Repr

/-- A `Module` object: owning-client reference plus the cached wire record
the object's attribute reads delegate to. (After `create_netif` /
`create_hostif`, the Python `self.obj` actually holds the `Module` wrapper
returned by `list()`; its `location` / `present` / `netifs` reads all
delegate to the freshly fetched record, which is what `obj` models.) -/
structure ModuleObj where
  client : ClientRef
  obj : ModuleData
deriving DecidableEq, Repr

/-- A `NetIf` / `HostIf` object: owning-client reference, the child wire
record it wraps, and the non-owning back-reference to the parent module. -/
structure IfObj where
  client : ClientRef
  data : IfData
  parent : ModuleObj
deriving DecidableEq, Repr

/-- `AsyncClient.list`: wrap each wire record of the ListModule response into
a `Module` owned by `owner`, keyed by location in insertion order (a later
duplicate location overwrites an earlier one on lookup). -/
def list_wire (owner : ClientRef) (wire : List ModuleData) :
    List (String × ModuleObj) :=
  wire.map fun m => (m.location, ⟨owner, m⟩)

/-- Lookup in the dict built by `list_wire`: the last binding of a key wins,
as for a Python dict filled by repeated assignment. -/
def dictGet (d : List (String × ModuleObj)) (k : String) : Option ModuleObj :=
  (d.reverse.find? fun e => e.1 = k).map (fun e => e.2)

/-- `AsyncClient.create_module`: append `("location", location)` to the
caller's attribute list — in place when one was passed, onto a fresh list
otherwise — then run `create` and return `get_module(location)`.
The first component is the caller's attribute list as it stands after the
call (the in-place `attrs.append` made it grow); `wire` is the ListModule
response the embedded `get_module` call receives. -/
def create_module (env : Env) (owner : ClientRef) (wire : List ModuleData)
    (location : String) (attrs0 : Option (List (AttrRef × String))) :
    List (AttrRef × String) × TaiM ModuleObj :=
  let attrs := (attrs0.getD []) ++ [(AttrRef.byName "location", location)]
  (attrs, do
    let _ ← create env .module attrs 0
    match get_module wire location with
    | .error e => taiFail e
    | .ok m => TaiM.pure ⟨owner, m⟩)

/-- `Module.create_netif`: append `("index", index)` to the caller's
attribute list — in place when one was passed, onto a fresh list otherwise —
issue `create(NETIF, attrs, self.oid)`, then unconditionally re-fetch the
module listing, replace this module's cached record with the entry at its
(old) location, and return `get_netif(index)` built from the refreshed
record. The first component is the caller's attribute list after the call;
`freshWire` is the ListModule response the re-fetch receives. A missing
location in the refreshed listing is a `KeyError`, an out-of-range index an
`IndexError`. -/
def create_netif (env : Env) (freshWire : List ModuleData) (self : ModuleObj)
    (index : Nat) (attrs0 : Option (List (AttrRef × String))) :
    List (AttrRef × String) × TaiM (ModuleObj × IfObj) :=
  let attrs := (attrs0.getD []) ++ [(AttrRef.byName "index", toString index)]
  (attrs, do
    let _ ← create env .netif attrs self.obj.oid
    match dictGet (list_wire self.client freshWire) self.obj.location with
    | none => taiFail (.generic "KeyError")
    | some fresh =>
      let self2 : ModuleObj := { self with obj := fresh.obj }
      match self2.obj.netifs[index]? with
      | none => taiFail (.generic "IndexError")
      | some d => TaiM.pure (self2, ⟨self2.client, d, self2⟩))

/-- `Module.create_hostif`: exactly as `create_netif`, over the hostif
children. -/
def create_hostif (env : Env) (freshWire : List ModuleData) (self : ModuleObj)
    (index : Nat) (attrs0 : Option (List (AttrRef × String))) :
    List (AttrRef × String) × TaiM (ModuleObj × IfObj) :=
  let attrs := (attrs0.getD []) ++ [(AttrRef.byName "index", toString index)]
  (attrs, do
    let _ ← create env .hostif attrs self.obj.oid
    match dictGet (list_wire self.client freshWire) self.obj.location with
    | none => taiFail (.generic "KeyError")
    | some fresh =>
      let self2 : ModuleObj := { self with obj := fresh.obj }
      match self2.obj.hostifs[index]? with
      | none => taiFail (.generic "IndexError")
      | some d => TaiM.pure (self2, ⟨self2.client, d, self2⟩))

/-- C9: whenever the embedded create call succeeds, the refreshed listing
still holds the module's location, and the index is in range of the
refreshed record, `create_netif` (and likewise `create_hostif`) replaces the
module's cached record with the freshly re-fetched snapshot entry and
returns a child built from that fresh entry's child list — so the returned
child carries the index field of the refreshed snapshot, not the locally
passed index. -/
theorem create_netif_uses_fresh_snapshot (env : Env)
    (freshWire : List ModuleData) (self : ModuleObj) (index : Nat)
    (l : List (AttrRef × String)) (cid cid2 : Nat) (fresh : ModuleObj)
    (d d2 : IfData)
    (hcreate : (create env .netif (l ++ [(AttrRef.byName "index", toString index)])
        self.obj.oid).1 = Except.ok cid)
    (hcreate2 : (create env .hostif (l ++ [(AttrRef.byName "index", toString index)])
        self.obj.oid).1 = Except.ok cid2)
    (hfind : dictGet (list_wire self.client freshWire) self.obj.location
        = some fresh)
    (hchild : fresh.obj.netifs[index]? = some d)
    (hchild2 : fresh.obj.hostifs[index]? = some d2) :
    ((create_netif env freshWire self index (some l)).2).1 =
      Except.ok ({ self with obj := fresh.obj },
                 ⟨self.client, d, { self with obj := fresh.obj }⟩)
    ∧ ((create_hostif env freshWire self index (some l)).2).1 =
      Except.ok ({ self with obj := fresh.obj },
                 ⟨self.client, d2, { self with obj := fresh.obj }⟩) := by
  constructor
  · have hsplit : create env .netif (l ++ [(AttrRef.byName "index", toString index)])
        self.obj.oid =
        (Except.ok cid,
         (create env .netif (l ++ [(AttrRef.byName "index", toString index)])
            self.obj.oid).2) := by
      rw [← hcreate]
      rfl
    simp only [create_netif, Option.getD]
    rw [TaiM.bind_eq]
    rw [hsplit]
    simp [TaiM.bind, hfind, hchild, TaiM.pure]
  · have hsplit : create env .hostif (l ++ [(AttrRef.byName "index", toString index)])
        self.obj.oid =
        (Except.ok cid2,
         (create env .hostif (l ++ [(AttrRef.byName "index", toString index)])
            self.obj.oid).2) := by
      rw [← hcreate2]
      rfl
    simp only [create_hostif, Option.getD]
    rw [TaiM.bind_eq]
    rw [hsplit]
    simp [TaiM.bind, hfind, hchild2, TaiM.pure]

/-- Oracle for the closed C9 instance: every descriptor resolves, every get
answers `"loc0"`, creation succeeds with oid 99. -/
def envCreate : Env where
  metadataResp := fun _ _ _ k =>
    Except.ok ⟨(match k with | Sum.inl i => i | Sum.inr _ => 1), "x", "rw"⟩
  getResp := fun _ ids _ => Except.ok (ids.map fun _ => "loc0")
  setResp := fun _ _ => Except.ok ()
  createResp := fun _ _ _ => Except.ok 99

/-- Module record before the create: oid 10 at `loc0`, no children yet. -/
def modBefore : ModuleData := ⟨10, "loc0", true, [], []⟩

/-- Refreshed module record the re-fetch returns: the new netif child sits at
list position 0 but carries wire index 4 — different from the index 0 the
create call was issued with — and likewise the hostif child carries wire
index 5. -/
def modAfter : ModuleData := ⟨10, "loc0", true, [⟨7, 4⟩], [⟨8, 5⟩]⟩

/-- Closed instance of `create_netif_uses_fresh_snapshot` in which the
refreshed snapshot's children carry indices 4 and 5 although the create
calls passed index 0: the returned children reflect the snapshot. -/
theorem create_netif_uses_fresh_snapshot_witness :
    ((create envCreate .netif ([] ++ [(AttrRef.byName "index", toString 0)])
        (ModuleObj.mk .internalAsync modBefore).obj.oid).1 = Except.ok 99
      ∧ (create envCreate .hostif ([] ++ [(AttrRef.byName "index", toString 0)])
        (ModuleObj.mk .internalAsync modBefore).obj.oid).1 = Except.ok 99
      ∧ dictGet (list_wire (ModuleObj.mk .internalAsync modBefore).client [modAfter])
          (ModuleObj.mk .internalAsync modBefore).obj.location
          = some ⟨.internalAsync, modAfter⟩
      ∧ (ModuleObj.mk .internalAsync modAfter).obj.netifs[(0 : Nat)]?
          = some ⟨7, 4⟩
      ∧ (ModuleObj.mk .internalAsync modAfter).obj.hostifs[(0 : Nat)]?
          = some ⟨8, 5⟩)
    ∧ (((create_netif envCreate [modAfter] ⟨.internalAsync, modBefore⟩ 0 (some [])).2).1
        = Except.ok (⟨.internalAsync, modAfter⟩,
                     ⟨.internalAsync, ⟨7, 4⟩, ⟨.internalAsync, modAfter⟩⟩)
      ∧ ((create_hostif envCreate [modAfter] ⟨.internalAsync, modBefore⟩ 0 (some [])).2).1
        = Except.ok (⟨.internalAsync, modAfter⟩,
                     ⟨.internalAsync, ⟨8, 5⟩, ⟨.internalAsync, modAfter⟩⟩))
    ∧ (IfData.mk 7 4).index ≠ 0 ∧ (IfData.mk 8 5).index ≠ 0 :=
  ⟨⟨rfl, rfl, rfl, rfl, rfl⟩,
   create_netif_uses_fresh_snapshot envCreate [modAfter]
     ⟨.internalAsync, modBefore⟩ 0 [] 99 99 ⟨.internalAsync, modAfter⟩
     ⟨7, 4⟩ ⟨8, 5⟩ rfl rfl rfl rfl rfl,
   by decide, by decide⟩

/-- C10: the three creation helpers append their implicit entry onto the very
attribute list the caller passed — modelled by the first component, the
caller's list as it stands after the call — and allocate a fresh list only
when no list was passed; threading one list through two successive calls
therefore accumulates both appended entries. -/
theorem create_helpers_append_to_callers_attrs (env : Env) (owner : ClientRef)
    (wire freshWire : List ModuleData) (self self2 : ModuleObj)
    (loc : String) (l : List (AttrRef × String)) (i j : Nat) :
    ((create_module env owner wire loc (some l)).1
        = l ++ [(AttrRef.byName "location", loc)])
    ∧ ((create_module env owner wire loc none).1
        = [(AttrRef.byName "location", loc)])
    ∧ ((create_netif env freshWire self i (some l)).1
        = l ++ [(AttrRef.byName "index", toString i)])
    ∧ ((create_netif env freshWire self i none).1
        = [(AttrRef.byName "index", toString i)])
    ∧ ((create_hostif env freshWire self i (some l)).1
        = l ++ [(AttrRef.byName "index", toString i)])
    ∧ ((create_hostif env freshWire self i none).1
        = [(AttrRef.byName "index", toString i)])
    ∧ ((create_netif env freshWire self2 j
          (some ((create_netif env freshWire self i (some l)).1))).1
        = l ++ [(AttrRef.byName "index", toString i),
                (AttrRef.byName "index", toString j)]) := by
  refine ⟨rfl, rfl, rfl, rfl, rfl, rfl, ?_⟩
  simp [create_netif]

/-- Oracle with two named attributes `a1` (id 1, usage rw) and `a2` (id 2,
usage ro) carrying distinct descriptors; get responses echo the ids. -/
def envTwoAttrs : Env where
  metadataResp := fun _ _ _ k =>
    match k with
    | Sum.inr "a1" => Except.ok ⟨1, "a1", "rw"⟩
    | Sum.inr "a2" => Except.ok ⟨2, "a2", "ro"⟩
    | Sum.inl 1 => Except.ok ⟨1, "a1", "rw"⟩
    | Sum.inl 2 => Except.ok ⟨2, "a2", "ro"⟩
    | _ => Except.error (.tai 1 "no such attribute")
  getResp := fun _ ids _ => Except.ok (ids.map fun j => "v" ++ toString j)
  setResp := fun _ _ => Except.ok ()
  createResp := fun _ _ _ => Except.ok 9

/-- C3: a batched get with metadata over the two distinct attributes `a1`
and `a2` pairs BOTH returned values with `a2`'s descriptor — the `meta`
local left over from the last loop iteration — although the first value
belongs to `a1`, whose descriptor `⟨1, "a1", "rw"⟩` was resolved during the
same batch. This evaluates the code at the failing input of the claim. -/
theorem get_multiple_pairs_stale_descriptor :
    get_multiple envTwoAttrs .module 9
        [GetEntry.bare (AttrRef.byName "a1"), GetEntry.bare (AttrRef.byName "a2")]
        true false =
      (Except.ok [GetResult.withMeta "v1" ⟨2, "a2", "ro"⟩,
                  GetResult.withMeta "v2" ⟨2, "a2", "ro"⟩],
       [.streamOpen "GetAttribute",
        .streamOpen "GetAttributeMetadata", .send "GetAttributeMetadata",
        .streamOpen "GetAttributeMetadata", .send "GetAttributeMetadata",
        .send "GetAttribute"])
    ∧ (Metadata.mk 2 "a2" "ro") ≠ (Metadata.mk 1 "a1" "rw") := by
  refine ⟨by rfl, by decide⟩

/-- A Python value crossing the facade's reply queue: `AsyncClient` results
are unit (set/remove), strings/numbers, a single `TAIObject`
(module/netif/hostif), or the location-keyed dict of modules that `list`
returns. -/
inductive PyValue where
  | unit
  | str (s : String)
  | num (n : Nat)
  | modObj (m : ModuleObj)
  | ifObj (x : IfObj)
  | dict (entries : List (String × ModuleObj))
deriving DecidableEq, Repr

/-- The worker's post-processing `if isinstance(ret, TAIObject):
ret.client = self` — the owning-client field is rebound to the facade only
when the returned value ITSELF is a `TAIObject`; values inside containers
(the dict `list` returns) are left untouched. -/
def rebindIfTAIObject : PyValue → PyValue
  | .modObj m => .modObj { m with client := .facade }
  | .ifObj x => .ifObj { x with client := .facade }
  | v => v

/-- What the worker enqueues on the reply queue for one dequeued command:
the value the underlying `AsyncClient` call returned (post-processed), or
the very exception object it raised, caught by the bare `except`. -/
inductive Outcome where
  | value (v : PyValue)
  | exn (e : PyErr)
deriving DecidableEq, Repr

/-- `Client.loop` body for one command: run the underlying call, catch any
exception into the reply, rebind a returned `TAIObject`'s owner. -/
def worker_process (call : Except PyErr PyValue) : Outcome :=
  match call with
  | .ok v => .value (rebindIfTAIObject v)
  | .error e => .exn e

/-- `Client.__getattr__`'s caller side: dequeue the reply, re-raise it when
it is an exception, return it otherwise. -/
def caller_deliver : Outcome → Except PyErr PyValue
  | .exn e => Except.error e
  | .value v => Except.ok v

/-- C6: for every outcome of the underlying asynchronous call, the facade
caller observes exactly that outcome: an exception `e` raised inside the
worker is re-raised to the caller as the very same `e` (same constructor,
same code and message fields — never wrapped or downgraded), and a returned
value is delivered as-is, after the worker's owning-client rebinding (an
in-place field update on the same object) when it is a `TAIObject`. -/
theorem facade_exception_fidelity (call : Except PyErr PyValue) :
    caller_deliver (worker_process call) =
      match call with
      | .error e => Except.error e
      | .ok v => Except.ok (rebindIfTAIObject v) := by
  cases call <;> rfl

/-- Module record for the C2 failing input: one module at location `"0"`. -/
def modLoc0 : ModuleData := ⟨1, "0", true, [], []⟩

/-- C2: calling `list` through the synchronous facade delivers the dict of
modules UNCHANGED: each contained module still carries the worker's internal
`AsyncClient` as its owning client, because the worker's rebinding applies
only when the returned value itself is a `TAIObject` and a dict is not one.
The claim requires the facade; the code delivers the unreachable internal
client. -/
theorem facade_list_keeps_internal_client :
    caller_deliver (worker_process (Except.ok
        (PyValue.dict (list_wire .internalAsync [modLoc0])))) =
      Except.ok (PyValue.dict [("0", ⟨ClientRef.internalAsync, modLoc0⟩)])
    ∧ ClientRef.internalAsync ≠ ClientRef.facade := by
  refine ⟨rfl, by decide⟩

/-- One caller thread of the facade: the commands it has still to submit,
whether it is currently blocked on the reply queue, and the replies it has
dequeued so far. Each call is `in_q.put(cmd)` followed by a blocking
`out_q.get()`, so a caller never has two submissions outstanding. -/
structure Caller where
  pending : List Nat
  awaiting : Bool
  received : List Nat
deriving DecidableEq, Repr

/-- Facade bridge state: the caller threads, the two FIFO queues (`in_q`
commands, `out_q` replies), and ghost histories of submitted commands,
worker-processed commands and produced replies, each in order. -/
structure Sys where
  callers : List Caller
  inQ : List Nat
  outQ : List Nat
  submittedHist : List Nat
  processedHist : List Nat
  repliedHist : List Nat
deriving DecidableEq, Repr

/-- Atomic interleaving events: caller `t` enqueues its next command, the
single worker dequeues one command and enqueues its reply (it handles one
command at a time, so at most one request is ever in flight), caller `t`
dequeues the head reply. -/
inductive Ev where
  | submit (t : Nat)
  | work
  | recv (t : Nat)
deriving DecidableEq, Repr

/-- One step of the bridge under reply function `p` (the underlying client,
mapping a command to its reply); `none` when the event is not enabled. -/
def step (p : Nat → Nat) (s : Sys) : Ev → Option Sys
  | .submit t =>
    match s.callers[t]? with
    | some c =>
      match c.pending, c.awaiting with
      | cmd :: rest, false =>
        some { s with
          callers := s.callers.set t ⟨rest, true, c.received⟩,
          inQ := s.inQ ++ [cmd],
          submittedHist := s.submittedHist ++ [cmd] }
      | _, _ => none
    | none => none
  | .work =>
    match s.inQ with
    | cmd :: rest =>
      some { s with
        inQ := rest,
        outQ := s.outQ ++ [p cmd],
        processedHist := s.processedHist ++ [cmd],
        repliedHist := s.repliedHist ++ [p cmd] }
    | [] => none
  | .recv t =>
    match s.callers[t]? with
    | some c =>
      match s.outQ, c.awaiting with
      | r :: rest, true =>
        some { s with
          callers := s.callers.set t ⟨c.pending, false, c.received ++ [r]⟩,
          outQ := rest }
      | _, _ => none
    | none => none

/-- Run a schedule of events from a state; `none` if any event is not
enabled at its turn. -/
def runSys (p : Nat → Nat) : Sys → List Ev → Option Sys
  | s, [] => some s
  | s, e :: es =>
    match step p s e with
    | some s2 => runSys p s2 es
    | none => none

/-- Initial bridge state for caller threads with the given command lists. -/
def mkInit (cfg : List (List Nat)) : Sys :=
  ⟨cfg.map fun l => ⟨l, false, []⟩, [], [], [], [], []⟩

/-- FIFO invariant of the bridge: the submission history splits into the
processed prefix and the still-queued commands, and the replies produced so
far are exactly the processed commands' replies in processing order. -/
def SysInv (p : Nat → Nat) (s : Sys) : Prop :=
  s.submittedHist = s.processedHist ++ s.inQ
  ∧ s.repliedHist = s.processedHist.map p

theorem step_inv (p : Nat → Nat) (s s' : Sys) (e : Ev)
    (h : step p s e = some s') (hinv : SysInv p s) : SysInv p s' := by
  obtain ⟨h1, h2⟩ := hinv
  cases e with
  | submit t =>
    simp only [step] at h
    split at h
    · split at h
      · rename_i c hc cmd rest hp ha
        rw [Option.some.injEq] at h
        subst h
        exact ⟨by simp [h1], by simpa using h2⟩
      · exact absurd h (by simp)
    · exact absurd h (by simp)
  | work =>
    simp only [step] at h
    split at h
    · rename_i cmd rest hq
      rw [Option.some.injEq] at h
      subst h
      refine ⟨?_, ?_⟩
      · simpa [hq] using h1
      · simp [h2]
    · exact absurd h (by simp)
  | recv t =>
    simp only [step] at h
    split at h
    · split at h
      · rename_i c hc r rest hq ha
        rw [Option.some.injEq] at h
        subst h
        exact ⟨h1, h2⟩
      · exact absurd h (by simp)
    · exact absurd h (by simp)

theorem runSys_inv (p : Nat → Nat) (evs : List Ev) (s s' : Sys)
    (hinv : SysInv p s) (h : runSys p s evs = some s') : SysInv p s' := by
  induction evs generalizing s with
  | nil =>
    simp only [runSys, Option.some.injEq] at h
    subst h
    exact hinv
  | cons e es ih =>
    simp only [runSys] at h
    cases hs : step p s e with
    | none => rw [hs] at h; exact absurd h (by simp)
    | some s2 =>
      rw [hs] at h
      exact ih s2 (step_inv p s s2 e hs hinv) h

/-- C7 (counterexample): a valid interleaving of two caller threads sharing
one facade — caller 0 submits command 1, caller 1 submits command 2, the
worker processes command 1, and caller 1 dequeues first — delivers to
caller 1 the reply `1` to CALLER 0's submission, although caller 1's own
submission was command 2 (whose reply under the identity client is 2). A
caller's reply therefore need not correspond to its own submission. -/
theorem facade_cross_thread_delivery_counterexample :
    runSys id (mkInit [[1], [2]])
        [Ev.submit 0, Ev.submit 1, Ev.work, Ev.recv 1] =
      some ⟨[⟨[], true, []⟩, ⟨[], false, [1]⟩], [2], [], [1, 2], [1], [1]⟩
    ∧ (1 : Nat) ≠ 2 := by
  refine ⟨by decide, by decide⟩

/-- C7 (amended): for every reply function, caller configuration and valid
schedule, the bridge's two FIFO queues and single serial worker give strict
submission-order processing: the replies produced are exactly the processed
commands' replies in submission order, and once the inbound queue is
drained, N submissions have produced exactly N replies in exactly
submission order — no reordering, no coalescing. (Which CALLER dequeues a
given reply is not determined when submissions from different threads
overlap; see the counterexample.) -/
theorem facade_fifo_ordering (p : Nat → Nat) (cfg : List (List Nat))
    (evs : List Ev) (s : Sys) (h : runSys p (mkInit cfg) evs = some s) :
    s.repliedHist = s.processedHist.map p
    ∧ s.submittedHist = s.processedHist ++ s.inQ
    ∧ (s.inQ = [] →
        s.repliedHist = s.submittedHist.map p
        ∧ s.repliedHist.length = s.submittedHist.length) := by
  have hinv : SysInv p s :=
    runSys_inv p evs (mkInit cfg) s ⟨by simp [mkInit], by simp [mkInit]⟩ h
  obtain ⟨h1, h2⟩ := hinv
  refine ⟨h2, h1, ?_⟩
  intro hq
  rw [hq, List.append_nil] at h1
  rw [h1]
  exact ⟨h2, by simp [h2]⟩

/-- Closed instance of `facade_fifo_ordering`: two callers, sequential
(non-overlapping) usage, both commands processed; the final state's replies
are `[1, 2]`, in exact submission order. -/
theorem facade_fifo_ordering_witness :
    (runSys id (mkInit [[1], [2]])
        [Ev.submit 0, Ev.work, Ev.recv 0, Ev.submit 1, Ev.work, Ev.recv 1] =
      some ⟨[⟨[], false, [1]⟩, ⟨[], false, [2]⟩], [], [], [1, 2], [1, 2], [1, 2]⟩)
    ∧ ([1, 2] : List Nat) = ([1, 2] : List Nat).map id
    ∧ ([1, 2] : List Nat) = [1, 2] ++ []
    ∧ (([] : List Nat) = [] →
        ([1, 2] : List Nat) = ([1, 2] : List Nat).map id
        ∧ ([1, 2] : List Nat).length = ([1, 2] : List Nat).length) :=
  ⟨by decide,
   (facade_fifo_ordering id [[1], [2]]
      [Ev.submit 0, Ev.work, Ev.recv 0, Ev.submit 1, Ev.work, Ev.recv 1]
      ⟨[⟨[], false, [1]⟩, ⟨[], false, [2]⟩], [], [], [1, 2], [1, 2], [1, 2]⟩
      (by decide)).1,
   (facade_fifo_ordering id [[1], [2]]
      [Ev.submit 0, Ev.work, Ev.recv 0, Ev.submit 1, Ev.work, Ev.recv 1]
      ⟨[⟨[], false, [1]⟩, ⟨[], false, [2]⟩], [], [], [1, 2], [1, 2], [1, 2]⟩
      (by decide)).2.1,
   (facade_fifo_ordering id [[1], [2]]
      [Ev.submit 0, Ev.work, Ev.recv 0, Ev.submit 1, Ev.work, Ev.recv 1]
      ⟨[⟨[], false, [1]⟩, ⟨[], false, [2]⟩], [], [], [1, 2], [1, 2], [1, 2]⟩
      (by decide)).2.2⟩

end Taish
